import Mathlib

/-!
Verification of the relay OCR pipeline control plane.

Shallow embedding of the Python modules under `backend/app/services`:
`compressor.py` (AdaptiveCompressor), `encoder.py` (LaptopDeepEncoder),
`ocr_fallback.py` (HybridOCR), `decoder.py` (StreamingDecoder),
`deepseek_service.py` (LaptopDeepSeekOCR) and `image_renderer.py`
(EfficientRenderer).

Conventions of the embedding:
* Python floats (free GPU memory in GB, compression ratios, file sizes in
  MB, PIL aspect ratios) are modelled as exact rationals `ℚ`.
* Ambient state read inside a method (CUDA availability, free memory,
  the outcome of an opaque model call, the text an OCR engine produces)
  is passed as an explicit argument.
* Fallible code is modelled with `Except`; a caught-and-logged exception
  becomes an explicit error branch.
* Logging calls and human-readable message strings of result dicts are
  not modelled; every field a claim talks about is.
-/

namespace Relay

/-! ## Compressor (`compressor.py`, class AdaptiveCompressor) -/

/-- Safety classification carried in the `status` field of the dict
returned by `AdaptiveCompressor.monitor_compression_ratio`. -/
inductive RatioStatus
  | ok
  | caution
  | warning
  | error
  deriving DecidableEq, Repr

/-- Entry of the `AdaptiveCompressor.compression_modes` table. -/
structure CompressionModeCfg where
  resolution : ℕ
  tokens : ℕ
  max_text_tokens : ℕ
  safe_ratio : ℚ
  deriving DecidableEq, Repr

/-- The `compression_modes` dict of `AdaptiveCompressor.__init__`,
modelled as a lookup returning `none` for unknown keys. -/
def compression_modes (mode : String) : Option CompressionModeCfg :=
  if mode = "tiny" then some { resolution := 512, tokens := 64, max_text_tokens := 600, safe_ratio := 9.4 }
  else if mode = "small" then some { resolution := 640, tokens := 100, max_text_tokens := 900, safe_ratio := 9 }
  else if mode = "base" then some { resolution := 1024, tokens := 256, max_text_tokens := 2500, safe_ratio := 9.8 }
  else none

/-- Result dict of `monitor_compression_ratio`, restricted to the fields
the control flow reads: the computed ratio, the status classification
and the `safe` flag.  The source additionally echoes the inputs and a
log message, and rounds the reported ratio to two decimals for display;
the classification is computed on the unrounded ratio. -/
structure RatioReport where
  ratio : ℚ
  status : RatioStatus
  safe : Bool
  deriving DecidableEq, Repr

/-- AdaptiveCompressor.monitor_compression_ratio: on zero compressed
tokens returns the error report with ratio 0 and safe False; otherwise
computes ratio = original/compressed, looks up the mode's safe_ratio
(default 10.0 for unknown modes, via dict .get), marks `safe` as
ratio <= 10, and classifies warning if ratio > 10, else caution if
ratio > safe_ratio, else ok. -/
def monitor_compression_ratio (original_tokens compressed_tokens : ℕ) (mode : String) : RatioReport :=
  if compressed_tokens = 0 then
    { ratio := 0, status := RatioStatus.error, safe := false }
  else
    let ratio : ℚ := (original_tokens : ℚ) / (compressed_tokens : ℚ)
    let safe_ratio : ℚ := (Option.map CompressionModeCfg.safe_ratio (compression_modes mode)).getD 10
    { ratio := ratio
      status :=
        if 10 < ratio then RatioStatus.warning
        else if safe_ratio < ratio then RatioStatus.caution
        else RatioStatus.ok
      safe := decide (ratio ≤ 10) }

/-- AdaptiveCompressor.estimate_text_tokens: pixels // 5000, clamped to
[100, 5000] by max(100, min(estimated, 5000)). -/
def estimate_text_tokens (width height : ℕ) : ℕ :=
  max 100 (min ((width * height) / 5000) 5000)

/-! ## Encoder (`encoder.py`, class LaptopDeepEncoder) -/

/-- Entry of the `LaptopDeepEncoder.mode_configs` table. -/
structure ModeConfig where
  resolution : ℕ
  tokens : ℕ
  max_text_tokens : ℕ
  memory_required_gb : ℚ
  deriving DecidableEq, Repr

/-- The `mode_configs` dict of `LaptopDeepEncoder.__init__`. -/
def mode_configs (mode : String) : Option ModeConfig :=
  if mode = "tiny" then some { resolution := 512, tokens := 64, max_text_tokens := 600, memory_required_gb := 2 }
  else if mode = "small" then some { resolution := 640, tokens := 100, max_text_tokens := 900, memory_required_gb := 4 }
  else if mode = "base" then some { resolution := 1024, tokens := 256, max_text_tokens := 2500, memory_required_gb := 8 }
  else none

/-- LaptopDeepEncoder._get_free_memory_gb: free CUDA bytes / 1e9 when
CUDA is available, 0.0 otherwise.  The probed byte count is an explicit
argument. -/
def get_free_memory_gb (cuda_available : Bool) (free_bytes : ℕ) : ℚ :=
  if cuda_available then (free_bytes : ℚ) / 1000000000 else 0

/-- LaptopDeepEncoder.auto_select_mode, with the free-memory probe result
passed explicitly: base if free >= 8 and complexity < 2500, else small
if free >= 4 and complexity < 900, else tiny. -/
def auto_select_mode (free_memory : ℚ) (document_complexity : ℤ) : String :=
  if 8 ≤ free_memory ∧ document_complexity < 2500 then "base"
  else if 4 ≤ free_memory ∧ document_complexity < 900 then "small"
  else "tiny"

/-! ## Fallback OCR router (`ocr_fallback.py`, class HybridOCR) -/

/-- Result dict of the per-engine wrappers `_process_with_deepseek`,
`_process_with_paddle`, `_process_with_tesseract` (fields the routing
logic reads: text, engine, status, and the optional error message). -/
structure OcrResult where
  text : String
  engine : String
  status : String
  err : Option String := none
  deriving DecidableEq, Repr

/-- Availability flags of a `HybridOCR` instance:
`deepseek_available` from `check_deepseek_memory()` at construction,
`has_paddle` for `self.paddle is not None`, and the
`enable_tesseract` constructor flag. -/
structure HybridState where
  deepseek_available : Bool
  has_paddle : Bool
  enable_tesseract : Bool
  deriving DecidableEq, Repr

/-- HybridOCR._select_engine: deepseek for simple documents when the
service is present, else paddle for medium complexity, else tesseract.
`has_service` models `deepseek_service is not None`. -/
def select_engine (st : HybridState) (has_service : Bool) (doc_complexity : ℤ) : String :=
  if st.deepseek_available ∧ has_service ∧ doc_complexity < 1000 then "deepseek"
  else if st.has_paddle ∧ doc_complexity < 2000 then "paddle"
  else "tesseract"

/-- Aggregate failure dict returned at the end of
`HybridOCR._fallback_chain` when every engine failed. -/
def all_failed_result : OcrResult :=
  { text := "", engine := "none", status := "error", err := some "All OCR engines failed" }

/-- HybridOCR._fallback_chain.  The outcome each engine wrapper would
produce for this document is passed explicitly (`ds`, `pd`, `tt`); the
wrappers never raise, they catch exceptions into status "error".
Tries deepseek (when available and a service instance was passed), then
paddle, then tesseract, returning the first success. -/
def fallback_chain (st : HybridState) (has_service : Bool) (ds pd tt : OcrResult) : OcrResult :=
  if st.deepseek_available ∧ has_service ∧ ds.status = "success" then ds
  else if st.has_paddle ∧ pd.status = "success" then pd
  else if st.enable_tesseract ∧ tt.status = "success" then tt
  else all_failed_result

/-- HybridOCR.process_document: picks the engine (forced or selected),
then routes: a selected engine that is present returns its wrapper's
result directly; only when the chosen engine is unavailable does the
code fall into `_fallback_chain`. -/
def process_document (st : HybridState) (has_service : Bool) (force_engine : Option String)
    (doc_complexity : ℤ) (ds pd tt : OcrResult) : OcrResult :=
  let engine := force_engine.getD (select_engine st has_service doc_complexity)
  if engine = "deepseek" ∧ has_service then ds
  else if engine = "paddle" ∧ st.has_paddle then pd
  else if engine = "tesseract" then tt
  else fallback_chain st has_service ds pd tt

/-! ## Decoder (`decoder.py`, class StreamingDecoder) -/

/-- The `format_prompts` dict of `StreamingDecoder._create_prompt`. -/
def format_prompts : List (String × String) :=
  [("text", "<image>\nFree OCR."),
   ("markdown", "<image>\n<|grounding|>Convert the document to markdown."),
   ("html", "<image>\nParse as HTML table."),
   ("grounding", "<image>\n<|grounding|>Extract text with bounding boxes.")]

/-- StreamingDecoder._create_prompt: dict lookup with the "text" entry
as the default for unknown formats
(`format_prompts.get(output_format, format_prompts['text'])`). -/
def create_prompt (output_format : String) : String :=
  (format_prompts.lookup output_format).getD ((format_prompts.lookup "text").getD "")

/-- StreamingDecoder.decode.  The opaque model generation step of
`_decode_batch` is the explicit argument `generate`, mapping the built
prompt to the generated text.  The streaming branch joins the chunks of
`decode_streaming`, whose token iterator is produced from
`_decode_batch(vision_tokens, 'text')` and re-emitted one character at
a time through `_token_to_text` (chr for code points < 128, else ''). -/
def decode (generate : String → String) (output_format : String) (stream : Bool) : String :=
  if stream then
    String.mk (((generate (create_prompt "text")).data).filter (fun ch => ch.toNat < 128))
  else
    generate (create_prompt output_format)

/-! ## Pipeline controller (`deepseek_service.py`, class LaptopDeepSeekOCR) -/

/-- Data of one rendered page as the primary-pipeline loop sees it:
the page image dimensions (input of `estimate_text_tokens`) and the
flattened length of the compressed token tensor. -/
structure PageData where
  width : ℕ
  height : ℕ
  token_count : ℕ
  deriving DecidableEq, Repr

/-- Outcome of `LaptopDeepSeekOCR._process_with_deepseek`: either the
per-page primary-pipeline texts (joined with a blank line on return),
or the text of `fallback.process_document` when an unsafe page aborted
the primary path for the whole document. -/
inductive DocOutcome
  | primary (page_texts : List String)
  | fallback (text : String)
  deriving DecidableEq, Repr

/-- Page loop of `_process_with_deepseek` with the compression mode
already resolved.  Per page: estimate text tokens from the page image,
monitor the compression ratio against the page's compressed token
count, and when the report is not safe return the fallback router's
text for the whole document; otherwise decode the page and continue.
`decode_text` abstracts the compress+decode of one page,
`fallback_text` is `fallback.process_document(file_path, None)['text']`. -/
def process_pages (mode : String) (decode_text : PageData → String) (fallback_text : String) :
    List PageData → DocOutcome
  | [] => DocOutcome.primary []
  | p :: rest =>
    let est := estimate_text_tokens p.width p.height
    let info := monitor_compression_ratio est p.token_count mode
    if info.safe then
      match process_pages mode decode_text fallback_text rest with
      | DocOutcome.primary ts => DocOutcome.primary (decode_text p :: ts)
      | DocOutcome.fallback t => DocOutcome.fallback t
    else
      DocOutcome.fallback fallback_text

/-- LaptopDeepSeekOCR._process_with_deepseek.  The source resolves a
`None` mode on the first page via `auto_select_mode` of the document
complexity estimate and reuses the assignment for later pages; as the
free-memory probe and the complexity estimate are fixed per document
this equals resolving the mode up front. -/
def process_with_deepseek (mode : Option String) (free_memory : ℚ) (doc_complexity : ℤ)
    (decode_text : PageData → String) (fallback_text : String) (pages : List PageData) : DocOutcome :=
  process_pages (mode.getD (auto_select_mode free_memory doc_complexity))
    decode_text fallback_text pages

/-- Joined text returned to the caller of `_process_with_deepseek`. -/
def doc_outcome_text : DocOutcome → String
  | DocOutcome.primary ts => String.intercalate "\n\n" ts
  | DocOutcome.fallback t => t

/-- Errors `LaptopDeepSeekOCR.process_file` can surface to its caller:
the missing-file rejection, the terminal all-OCR-methods-failed
exception, and an exception of the primary pipeline that propagates
uncaught (only possible on the streaming code path). -/
inductive ProcessFileError
  | file_not_found
  | all_failed (msg : String)
  | propagated
  deriving DecidableEq, Repr

/-- LaptopDeepSeekOCR.process_file.  `ready` models
`self.initialized and self.model`; `primary` is the outcome of
`_process_with_deepseek` (in the degraded state `self.encoder` is None,
so running the primary pipeline on a nonempty document raises);
`fb` is the result of `fallback.process_document(file_path, None)`.
Order of the source checks: missing file, then the 10MB streaming
routing (which calls `_process_streaming`, a direct call into
`_process_with_deepseek` with no state check and no exception guard),
then the guarded primary attempt when ready, then the fallback router,
whose failure raises the aggregate exception. -/
def process_file (file_exists : Bool) (file_size_mb : ℚ) (ready : Bool)
    (primary : Except Unit String) (fb : OcrResult) : Except ProcessFileError String :=
  if ¬ file_exists then Except.error ProcessFileError.file_not_found
  else if 10 < file_size_mb then
    match primary with
    | Except.ok t => Except.ok t
    | Except.error _ => Except.error ProcessFileError.propagated
  else
    let fb_result : Except ProcessFileError String :=
      if fb.status = "success" then Except.ok fb.text
      else Except.error (ProcessFileError.all_failed (fb.err.getD "Unknown error"))
    if ready then
      match primary with
      | Except.ok t => Except.ok t
      | Except.error _ => fb_result
    else fb_result

/-! ## Renderer (`image_renderer.py`, class EfficientRenderer) -/

/-- Width and height of a PIL image. -/
structure ImgSize where
  w : ℕ
  h : ℕ
  deriving DecidableEq, Repr

/-- Rounding helper of PIL's `Image.thumbnail` (`round_aspect`): pick
floor or ceil of the ideal value, whichever minimises the key (floor on
ties, as Python's min keeps the first argument), then clamp to at
least 1. -/
def round_aspect (x : ℚ) (key : ℤ → ℚ) : ℤ :=
  max (if key ⌊x⌋ ≤ key ⌈x⌉ then ⌊x⌋ else ⌈x⌉) 1

/-- Size behaviour of PIL's `Image.thumbnail(box)` as called by
`_resize_to_target`: a no-op when the image already fits in the box,
otherwise the image is shrunk to fit the box preserving aspect ratio,
keeping the box height (when the box is at least as wide as the aspect
demands) or the box width (otherwise) and rounding the other dimension
to the nearest integer of the ideal aspect value. -/
def thumbnail_size (img box : ImgSize) : ImgSize :=
  if img.w ≤ box.w ∧ img.h ≤ box.h then img
  else if (img.w : ℚ) / (img.h : ℚ) ≤ (box.w : ℚ) / (box.h : ℚ) then
    { w := (round_aspect ((box.h : ℚ) * ((img.w : ℚ) / (img.h : ℚ)))
        (fun n => |(img.w : ℚ) / (img.h : ℚ) - (n : ℚ) / (box.h : ℚ)|)).toNat
      h := box.h }
  else
    { w := box.w
      h := (round_aspect ((box.w : ℚ) / ((img.w : ℚ) / (img.h : ℚ)))
        (fun n => if n = 0 then 0
          else |(img.w : ℚ) / (img.h : ℚ) - (box.w : ℚ) / (n : ℚ)|)).toNat }

/-- Size of the aspect-preserving resize step of the padding branch of
`_resize_to_target`: ratio = min(target_w/w, target_h/h), new
dimensions int(w*ratio), int(h*ratio) (truncation = floor for the
nonnegative values involved). -/
def aspect_fit_size (img target : ImgSize) : ImgSize :=
  let fit : ℚ := min ((target.w : ℚ) / (img.w : ℚ)) ((target.h : ℚ) / (img.h : ℚ))
  { w := (⌊(img.w : ℚ) * fit⌋).toNat, h := (⌊(img.h : ℚ) * fit⌋).toNat }

/-- Geometry of the page image `_resize_to_target` returns: the size of
the returned image, the size of the image content inside it, and where
the content was pasted. -/
structure RenderedPage where
  size : ImgSize
  content_size : ImgSize
  offset_x : ℤ
  offset_y : ℤ
  deriving DecidableEq, Repr

/-- EfficientRenderer._resize_to_target.  For target widths <= 640:
thumbnail only when a dimension exceeds the target, otherwise the image
is returned untouched.  For larger targets: aspect-preserving resize
via `aspect_fit_size`, then paste centered onto a white
(255,255,255) canvas of exactly the target dimensions; the returned
image is that canvas. -/
def resize_to_target (img target : ImgSize) : RenderedPage :=
  if target.w ≤ 640 then
    let out := if target.w < img.w ∨ target.h < img.h then thumbnail_size img target else img
    { size := out, content_size := out, offset_x := 0, offset_y := 0 }
  else
    let inner := aspect_fit_size img target
    { size := { w := target.w, h := target.h }
      content_size := inner
      offset_x := ((target.w : ℤ) - (inner.w : ℤ)) / 2
      offset_y := ((target.h : ℤ) - (inner.h : ℤ)) / 2 }

/-! ## Helper lemmas -/

/-- Status of a nonzero-token ratio report, as a single conditional. -/
lemma monitor_status_eq (o c : ℕ) (mode : String) (hc : c ≠ 0) :
    (monitor_compression_ratio o c mode).status =
      (if 10 < (o : ℚ) / (c : ℚ) then RatioStatus.warning
       else if (Option.map CompressionModeCfg.safe_ratio (compression_modes mode)).getD 10 <
           (o : ℚ) / (c : ℚ) then RatioStatus.caution
       else RatioStatus.ok) := by
  simp [monitor_compression_ratio, hc]

/-- Case analysis of the warning/caution/ok conditional when the
mode-specific threshold is at most the universal one. -/
lemma status_cases (r sr : ℚ) (hsr : sr ≤ 10) :
    ((if 10 < r then RatioStatus.warning
      else if sr < r then RatioStatus.caution else RatioStatus.ok) = RatioStatus.warning ↔ 10 < r) ∧
    ((if 10 < r then RatioStatus.warning
      else if sr < r then RatioStatus.caution else RatioStatus.ok) = RatioStatus.caution ↔
        (sr < r ∧ r ≤ 10)) ∧
    ((if 10 < r then RatioStatus.warning
      else if sr < r then RatioStatus.caution else RatioStatus.ok) = RatioStatus.ok ↔ r ≤ sr) := by
  by_cases h1 : 10 < r
  · have h2 : sr < r := lt_of_le_of_lt hsr h1
    refine ⟨by simp [h1], ?_, ?_⟩
    · rw [if_pos h1]
      simp only [reduceCtorEq, false_iff, not_and, not_le]
      intro _
      exact h1
    · rw [if_pos h1]
      simp only [reduceCtorEq, false_iff, not_le]
      exact lt_of_le_of_lt hsr h1
  · by_cases h2 : sr < r
    · refine ⟨?_, ?_, ?_⟩
      · rw [if_neg h1, if_pos h2]
        simp only [reduceCtorEq, false_iff, not_lt]
        exact le_of_not_lt h1
      · rw [if_neg h1, if_pos h2]
        simp [h2, le_of_not_lt h1]
      · rw [if_neg h1, if_pos h2]
        simp only [reduceCtorEq, false_iff, not_le]
        exact h2
    · refine ⟨?_, ?_, ?_⟩
      · rw [if_neg h1, if_neg h2]
        simp [h1]
      · rw [if_neg h1, if_neg h2]
        simp [h2]
      · rw [if_neg h1, if_neg h2]
        simp [le_of_not_lt h2]

/-- Any page with an unsafe ratio report forces the whole-document
result of the page loop to be the fallback router's text. -/
lemma unsafe_page_forces_fallback (mode : String) (dec : PageData → String) (fb : String)
    (pages : List PageData) (p : PageData) (hp : p ∈ pages)
    (hbad : (monitor_compression_ratio (estimate_text_tokens p.width p.height)
      p.token_count mode).safe = false) :
    process_pages mode dec fb pages = DocOutcome.fallback fb := by
  induction pages with
  | nil => cases hp
  | cons q rest ih =>
    rcases List.mem_cons.mp hp with h | h
    · subst h
      simp [process_pages, hbad]
    · cases hq : (monitor_compression_ratio (estimate_text_tokens q.width q.height)
        q.token_count mode).safe with
      | false => simp [process_pages, hq]
      | true => simp [process_pages, hq, ih h]

/-- A warning classification implies the report's safe flag is False. -/
lemma warning_not_safe (o c : ℕ) (mode : String)
    (h : (monitor_compression_ratio o c mode).status = RatioStatus.warning) :
    (monitor_compression_ratio o c mode).safe = false := by
  by_cases hc : c = 0
  · subst hc
    simp [monitor_compression_ratio] at h
  · by_cases h10 : 10 < (o : ℚ) / (c : ℚ)
    · simp [monitor_compression_ratio, hc, not_le.mpr h10]
    · exfalso
      rw [monitor_status_eq o c mode hc, if_neg h10] at h
      split_ifs at h

/-- The rounded aspect dimension never exceeds an integer bound of at
least 1 that dominates the ideal value. -/
lemma round_aspect_le (x : ℚ) (key : ℤ → ℚ) (n : ℤ) (hx : x ≤ (n : ℚ)) (hn : 1 ≤ n) :
    round_aspect x key ≤ n := by
  unfold round_aspect
  have hceil : ⌈x⌉ ≤ n := Int.ceil_le.mpr hx
  have hfloor : ⌊x⌋ ≤ n := le_trans (Int.floor_le_ceil x) hceil
  split_ifs with h
  · exact max_le hfloor hn
  · exact max_le hceil hn

/-- Thumbnailing never upscales: both result dimensions stay at most
the original ones. -/
lemma thumbnail_size_le (img box : ImgSize) (hw : 0 < img.w) (hh : 0 < img.h)
    (hbw : 0 < box.w) (hbh : 0 < box.h) :
    (thumbnail_size img box).w ≤ img.w ∧ (thumbnail_size img box).h ≤ img.h := by
  have hwq : (0 : ℚ) < (img.w : ℚ) := by exact_mod_cast hw
  have hhq : (0 : ℚ) < (img.h : ℚ) := by exact_mod_cast hh
  have hbwq : (0 : ℚ) < (box.w : ℚ) := by exact_mod_cast hbw
  have hbhq : (0 : ℚ) < (box.h : ℚ) := by exact_mod_cast hbh
  unfold thumbnail_size
  split_ifs with hfit hasp
  · exact ⟨le_refl _, le_refl _⟩
  · have hcross : (img.w : ℚ) * (box.h : ℚ) ≤ (box.w : ℚ) * (img.h : ℚ) :=
      (div_le_div_iff₀ hhq hbhq).mp hasp
    have hbh_le : box.h ≤ img.h := by
      by_contra hlt
      push_neg at hlt
      apply hfit
      have hltq : (img.h : ℚ) < (box.h : ℚ) := by exact_mod_cast hlt
      have h2 : (box.w : ℚ) * (img.h : ℚ) < (box.w : ℚ) * (box.h : ℚ) :=
        mul_lt_mul_of_pos_left hltq hbwq
      have h3 : (img.w : ℚ) * (box.h : ℚ) < (box.w : ℚ) * (box.h : ℚ) :=
        lt_of_le_of_lt hcross h2
      have h4 : (img.w : ℚ) < (box.w : ℚ) := (mul_lt_mul_right hbhq).mp h3
      exact ⟨by exact_mod_cast h4.le, hlt.le⟩
    refine ⟨?_, hbh_le⟩
    have hideal : (box.h : ℚ) * ((img.w : ℚ) / (img.h : ℚ)) ≤ (img.w : ℚ) := by
      rw [← mul_div_assoc, div_le_iff₀ hhq]
      have hc : (box.h : ℚ) ≤ (img.h : ℚ) := by exact_mod_cast hbh_le
      calc (box.h : ℚ) * (img.w : ℚ) ≤ (img.h : ℚ) * (img.w : ℚ) :=
            mul_le_mul_of_nonneg_right hc hwq.le
        _ = (img.w : ℚ) * (img.h : ℚ) := by ring
    have h5 : round_aspect ((box.h : ℚ) * ((img.w : ℚ) / (img.h : ℚ)))
        (fun n => |(img.w : ℚ) / (img.h : ℚ) - (n : ℚ) / (box.h : ℚ)|) ≤ (img.w : ℤ) :=
      round_aspect_le _ _ _ (by exact_mod_cast hideal) (by exact_mod_cast hw)
    exact Int.toNat_le.mpr (by exact_mod_cast h5)
  · push_neg at hasp
    have hcross : (box.w : ℚ) * (img.h : ℚ) < (img.w : ℚ) * (box.h : ℚ) :=
      (div_lt_div_iff₀ hbhq hhq).mp hasp
    have hbw_le : box.w ≤ img.w := by
      by_contra hlt
      push_neg at hlt
      apply hfit
      have hltq : (img.w : ℚ) < (box.w : ℚ) := by exact_mod_cast hlt
      have h2 : (img.w : ℚ) * (box.h : ℚ) < (box.w : ℚ) * (box.h : ℚ) :=
        mul_lt_mul_of_pos_right hltq hbhq
      have h3 : (box.w : ℚ) * (img.h : ℚ) < (box.w : ℚ) * (box.h : ℚ) := lt_trans hcross h2
      have h4 : (img.h : ℚ) < (box.h : ℚ) := (mul_lt_mul_left hbwq).mp h3
      exact ⟨hlt.le, by exact_mod_cast h4.le⟩
    refine ⟨hbw_le, ?_⟩
    have hideal : (box.w : ℚ) / ((img.w : ℚ) / (img.h : ℚ)) ≤ (img.h : ℚ) := by
      rw [div_div_eq_mul_div, div_le_iff₀ hwq]
      have hc : (box.w : ℚ) ≤ (img.w : ℚ) := by exact_mod_cast hbw_le
      calc (box.w : ℚ) * (img.h : ℚ) ≤ (img.w : ℚ) * (img.h : ℚ) :=
            mul_le_mul_of_nonneg_right hc hhq.le
        _ = (img.h : ℚ) * (img.w : ℚ) := by ring
    have h5 : round_aspect ((box.w : ℚ) / ((img.w : ℚ) / (img.h : ℚ)))
        (fun n => if n = 0 then 0
          else |(img.w : ℚ) / (img.h : ℚ) - (box.w : ℚ) / (n : ℚ)|) ≤ (img.h : ℤ) :=
      round_aspect_le _ _ _ (by exact_mod_cast hideal) (by exact_mod_cast hh)
    exact Int.toNat_le.mpr (by exact_mod_cast h5)

/-- The aspect-preserving resize step of the padding branch fits within
the target box. -/
lemma aspect_fit_size_le (img target : ImgSize) (hw : 0 < img.w) (hh : 0 < img.h) :
    (aspect_fit_size img target).w ≤ target.w ∧ (aspect_fit_size img target).h ≤ target.h := by
  have hwq : (0 : ℚ) < (img.w : ℚ) := by exact_mod_cast hw
  have hhq : (0 : ℚ) < (img.h : ℚ) := by exact_mod_cast hh
  simp only [aspect_fit_size]
  constructor
  · have h1 : (img.w : ℚ) * min ((target.w : ℚ) / (img.w : ℚ)) ((target.h : ℚ) / (img.h : ℚ))
        ≤ (target.w : ℚ) := by
      calc (img.w : ℚ) * min ((target.w : ℚ) / (img.w : ℚ)) ((target.h : ℚ) / (img.h : ℚ))
          ≤ (img.w : ℚ) * ((target.w : ℚ) / (img.w : ℚ)) :=
            mul_le_mul_of_nonneg_left (min_le_left _ _) hwq.le
        _ = (target.w : ℚ) := by field_simp
    have h2 : ⌊(img.w : ℚ) * min ((target.w : ℚ) / (img.w : ℚ))
        ((target.h : ℚ) / (img.h : ℚ))⌋ ≤ (target.w : ℤ) := by
      calc ⌊(img.w : ℚ) * min ((target.w : ℚ) / (img.w : ℚ)) ((target.h : ℚ) / (img.h : ℚ))⌋
          ≤ ⌊(target.w : ℚ)⌋ := Int.floor_mono h1
        _ = (target.w : ℤ) := Int.floor_natCast _
    exact Int.toNat_le.mpr h2
  · have h1 : (img.h : ℚ) * min ((target.w : ℚ) / (img.w : ℚ)) ((target.h : ℚ) / (img.h : ℚ))
        ≤ (target.h : ℚ) := by
      calc (img.h : ℚ) * min ((target.w : ℚ) / (img.w : ℚ)) ((target.h : ℚ) / (img.h : ℚ))
          ≤ (img.h : ℚ) * ((target.h : ℚ) / (img.h : ℚ)) :=
            mul_le_mul_of_nonneg_left (min_le_right _ _) hhq.le
        _ = (target.h : ℚ) := by field_simp
    have h2 : ⌊(img.h : ℚ) * min ((target.w : ℚ) / (img.w : ℚ))
        ((target.h : ℚ) / (img.h : ℚ))⌋ ≤ (target.h : ℤ) := by
      calc ⌊(img.h : ℚ) * min ((target.w : ℚ) / (img.w : ℚ)) ((target.h : ℚ) / (img.h : ℚ))⌋
          ≤ ⌊(target.h : ℚ)⌋ := Int.floor_mono h1
        _ = (target.h : ℤ) := Int.floor_natCast _
    exact Int.toNat_le.mpr h2

/-! ## Claim theorems -/

/-- C4: auto_select_mode is the deterministic decision table over
(free GPU memory, complexity): base exactly when free >= 8 GB and
complexity < 2500; otherwise small exactly when free >= 4 GB and
complexity < 900; otherwise tiny.  Complexity 550 with 8 GB free gives
base, and complexity 1200 with 5 GB free gives tiny. -/
theorem auto_select_mode_decision_table (free : ℚ) (c : ℤ) :
    (auto_select_mode free c = "base" ↔ (8 ≤ free ∧ c < 2500)) ∧
    (auto_select_mode free c = "small" ↔ (¬(8 ≤ free ∧ c < 2500) ∧ (4 ≤ free ∧ c < 900))) ∧
    (auto_select_mode free c = "tiny" ↔ (¬(8 ≤ free ∧ c < 2500) ∧ ¬(4 ≤ free ∧ c < 900))) ∧
    auto_select_mode 8 550 = "base" ∧ auto_select_mode 5 1200 = "tiny" := by
  have h8 : auto_select_mode 8 550 = "base" := by
    unfold auto_select_mode
    norm_num
  have h5 : auto_select_mode 5 1200 = "tiny" := by
    unfold auto_select_mode
    norm_num
  refine ⟨?_, ?_, ?_, h8, h5⟩ <;>
    unfold auto_select_mode <;> split_ifs with h1 h2 <;> simp_all

/-- C10: when no accelerator is present the free-memory probe returns
0.0 GB, and auto_select_mode then returns tiny for every document
complexity: a CPU-only host can never get small or base. -/
theorem no_gpu_always_tiny (free_bytes : ℕ) (c : ℤ) :
    get_free_memory_gb false free_bytes = 0 ∧
    auto_select_mode (get_free_memory_gb false free_bytes) c = "tiny" := by
  constructor
  · rfl
  · unfold get_free_memory_gb auto_select_mode
    norm_num

/-- C5 counterexample: with 0 GB of reported free memory (any
complexity), auto_select_mode returns tiny whose memory requirement is
2 GB, which exceeds the reported free memory. -/
theorem auto_select_mode_tiny_exceeds_free_memory :
    auto_select_mode 0 0 = "tiny" ∧
    (Option.map ModeConfig.memory_required_gb (mode_configs (auto_select_mode 0 0))).getD 0 = 2 ∧
    ¬((Option.map ModeConfig.memory_required_gb (mode_configs (auto_select_mode 0 0))).getD 0
        ≤ (0 : ℚ)) := by
  refine ⟨?_, ?_, ?_⟩ <;> norm_num [auto_select_mode, mode_configs]

/-- C5 amended: whenever auto_select_mode returns a mode other than the
tiny floor, that mode's memory requirement does not exceed the reported
free memory; tiny itself is selected unconditionally as the fallback
floor and its 2 GB requirement can exceed the reported free memory. -/
theorem auto_select_mode_nonfloor_memory_sound (free : ℚ) (c : ℤ) (cfg : ModeConfig)
    (hne : auto_select_mode free c ≠ "tiny")
    (hcfg : mode_configs (auto_select_mode free c) = some cfg) :
    cfg.memory_required_gb ≤ free := by
  unfold auto_select_mode at hne hcfg
  split_ifs at hne hcfg with h1 h2
  · have hbase : mode_configs "base" = some (⟨1024, 256, 2500, 8⟩ : ModeConfig) := rfl
    rw [hbase, Option.some_inj] at hcfg
    rw [← hcfg]
    exact h1.1
  · have hsmall : mode_configs "small" = some (⟨640, 100, 900, 4⟩ : ModeConfig) := rfl
    rw [hsmall, Option.some_inj] at hcfg
    rw [← hcfg]
    exact h2.1
  · exact absurd rfl hne

/-- Witness for the amended C5 theorem at free memory 8 GB and
complexity 550, where base is selected with requirement 8 <= 8. -/
theorem auto_select_mode_nonfloor_memory_sound_witness :
    auto_select_mode 8 550 ≠ "tiny" ∧
    mode_configs (auto_select_mode 8 550) = some (⟨1024, 256, 2500, 8⟩ : ModeConfig) ∧
    (⟨1024, 256, 2500, 8⟩ : ModeConfig).memory_required_gb ≤ 8 := by
  have hb : auto_select_mode 8 550 = "base" := by norm_num [auto_select_mode]
  have h1 : auto_select_mode 8 550 ≠ "tiny" := by
    rw [hb]
    decide
  have h2 : mode_configs (auto_select_mode 8 550) = some (⟨1024, 256, 2500, 8⟩ : ModeConfig) := by
    rw [hb]
    rfl
  exact ⟨h1, h2, auto_select_mode_nonfloor_memory_sound 8 550 _ h1 h2⟩

/-- C3: monitor_compression_ratio classifies exactly as claimed: zero
compressed tokens give status error with ratio 0; otherwise with
ratio = original/compressed the status is warning iff ratio > 10.0
(independent of the mode), caution iff ratio exceeds the mode's
documented safe ratio (9.4 tiny, 9.0 small, 9.8 base) but is at most
10.0, and ok otherwise. -/
theorem monitor_compression_ratio_classification (o c : ℕ) (mode : String)
    (hm : mode = "tiny" ∨ mode = "small" ∨ mode = "base") (hc : 0 < c) :
    (monitor_compression_ratio o 0 mode).status = RatioStatus.error ∧
    (monitor_compression_ratio o 0 mode).ratio = 0 ∧
    ((monitor_compression_ratio o c mode).status = RatioStatus.warning ↔
      10 < (o : ℚ) / (c : ℚ)) ∧
    ((monitor_compression_ratio o c mode).status = RatioStatus.caution ↔
      ((if mode = "tiny" then (9.4 : ℚ) else if mode = "small" then 9 else 9.8) <
          (o : ℚ) / (c : ℚ) ∧ (o : ℚ) / (c : ℚ) ≤ 10)) ∧
    ((monitor_compression_ratio o c mode).status = RatioStatus.ok ↔
      (o : ℚ) / (c : ℚ) ≤
        (if mode = "tiny" then (9.4 : ℚ) else if mode = "small" then 9 else 9.8)) := by
  have hc' : c ≠ 0 := hc.ne'
  have hs := monitor_status_eq o c mode hc'
  have herr : (monitor_compression_ratio o 0 mode).status = RatioStatus.error := by
    simp [monitor_compression_ratio]
  have herr2 : (monitor_compression_ratio o 0 mode).ratio = 0 := by
    simp [monitor_compression_ratio]
  rcases hm with h | h | h <;> subst h
  · have hsr : (Option.map CompressionModeCfg.safe_ratio (compression_modes "tiny")).getD 10 =
        (9.4 : ℚ) := rfl
    rw [hsr] at hs
    have hcs := status_cases ((o : ℚ) / (c : ℚ)) 9.4 (by norm_num)
    rw [hs]
    exact ⟨herr, herr2, hcs.1, by simpa using hcs.2.1, by simpa using hcs.2.2⟩
  · have hsr : (Option.map CompressionModeCfg.safe_ratio (compression_modes "small")).getD 10 =
        (9 : ℚ) := rfl
    rw [hsr] at hs
    have hcs := status_cases ((o : ℚ) / (c : ℚ)) 9 (by norm_num)
    rw [hs]
    exact ⟨herr, herr2, hcs.1, by simpa using hcs.2.1, by simpa using hcs.2.2⟩
  · have hsr : (Option.map CompressionModeCfg.safe_ratio (compression_modes "base")).getD 10 =
        (9.8 : ℚ) := rfl
    rw [hsr] at hs
    have hcs := status_cases ((o : ℚ) / (c : ℚ)) 9.8 (by norm_num)
    rw [hs]
    exact ⟨herr, herr2, hcs.1, by simpa using hcs.2.1, by simpa using hcs.2.2⟩

/-- Witness for the C3 classification theorem: 650 original tokens
against 64 compressed tokens in tiny mode give ratio 650/64 > 10 and
status warning. -/
theorem monitor_compression_ratio_classification_witness :
    10 < (650 : ℚ) / (64 : ℚ) ∧
    (monitor_compression_ratio 650 64 "tiny").status = RatioStatus.warning :=
  ⟨by norm_num,
    ((monitor_compression_ratio_classification 650 64 "tiny" (Or.inl rfl)
      (by norm_num)).2.2.1).mpr (by norm_num)⟩

/-- C2: if some page of the document gets a warning ratio
classification, the primary pipeline is abandoned for the whole
document and the fallback router's text is returned; primary-pipeline
text is never returned for such a document. -/
theorem warning_page_forces_fallback_document (mode : Option String) (free : ℚ) (cx : ℤ)
    (dec : PageData → String) (fb : String) (pages : List PageData) (p : PageData)
    (hp : p ∈ pages)
    (hw : (monitor_compression_ratio (estimate_text_tokens p.width p.height) p.token_count
      (mode.getD (auto_select_mode free cx))).status = RatioStatus.warning) :
    process_with_deepseek mode free cx dec fb pages = DocOutcome.fallback fb ∧
    ∀ ts, process_with_deepseek mode free cx dec fb pages ≠ DocOutcome.primary ts := by
  have hmain : process_with_deepseek mode free cx dec fb pages = DocOutcome.fallback fb := by
    unfold process_with_deepseek
    exact unsafe_page_forces_fallback _ dec fb pages p hp (warning_not_safe _ _ _ hw)
  refine ⟨hmain, ?_⟩
  intro ts
  rw [hmain]
  simp

/-- Witness for the C2 theorem: a 3000x2000 page (1200 estimated text
tokens) compressed to 100 tokens in small mode has ratio 12 > 10,
status warning, and the document result is the fallback text. -/
theorem warning_page_forces_fallback_document_witness :
    (monitor_compression_ratio (estimate_text_tokens 3000 2000) 100
      ((some "small").getD (auto_select_mode 0 0))).status = RatioStatus.warning ∧
    process_with_deepseek (some "small") 0 0 (fun _ => "page text") "router text"
      [⟨3000, 2000, 100⟩] = DocOutcome.fallback "router text" := by
  have hw : (monitor_compression_ratio (estimate_text_tokens 3000 2000) 100
      ((some "small").getD (auto_select_mode 0 0))).status = RatioStatus.warning := by
    norm_num [monitor_compression_ratio, estimate_text_tokens, compression_modes]
  exact ⟨hw, (warning_page_forces_fallback_document (some "small") 0 0 (fun _ => "page text")
    "router text" [⟨3000, 2000, 100⟩] ⟨3000, 2000, 100⟩ (by simp) hw).1⟩

/-- C6 counterexample: a page with zero compressed tokens is classified
error (not warning), yet the controller's redirect check fires on it
and the document is redirected to the fallback router, contradicting
the claim that the zero-token case is excluded from the ratio-based
redirect logic. -/
theorem zero_tokens_triggers_redirect_cex :
    (monitor_compression_ratio (estimate_text_tokens 640 640) 0 "small").status =
      RatioStatus.error ∧
    (monitor_compression_ratio (estimate_text_tokens 640 640) 0 "small").status ≠
      RatioStatus.warning ∧
    process_with_deepseek (some "small") 0 0 (fun _ => "page text") "router text"
      [⟨640, 640, 0⟩] = DocOutcome.fallback "router text" := by
  refine ⟨rfl, by decide, rfl⟩

/-- C6 amended: a zero-token page gets status error with ratio 0 and
safe False from monitor_compression_ratio; since the controller
redirects on any unsafe report, such a page does trigger the
document-level redirection to the fallback router, the same path a
warning takes (it is not a distinct excluded path). -/
theorem zero_tokens_error_and_redirect (mode : Option String) (free : ℚ) (cx : ℤ)
    (dec : PageData → String) (fb : String) (pages : List PageData) (p : PageData)
    (hp : p ∈ pages) (h0 : p.token_count = 0) :
    (monitor_compression_ratio (estimate_text_tokens p.width p.height) p.token_count
      (mode.getD (auto_select_mode free cx))).status = RatioStatus.error ∧
    (monitor_compression_ratio (estimate_text_tokens p.width p.height) p.token_count
      (mode.getD (auto_select_mode free cx))).ratio = 0 ∧
    process_with_deepseek mode free cx dec fb pages = DocOutcome.fallback fb := by
  have hz : monitor_compression_ratio (estimate_text_tokens p.width p.height) p.token_count
      (mode.getD (auto_select_mode free cx)) =
      ⟨0, RatioStatus.error, false⟩ := by
    rw [h0]
    rfl
  refine ⟨by rw [hz], by rw [hz], ?_⟩
  unfold process_with_deepseek
  exact unsafe_page_forces_fallback _ dec fb pages p hp (by rw [hz])

/-- Witness for the amended C6 theorem at a concrete one-page document
whose page has zero compressed tokens. -/
theorem zero_tokens_error_and_redirect_witness :
    (⟨640, 640, 0⟩ : PageData).token_count = 0 ∧
    process_with_deepseek (some "tiny") 0 0 (fun _ => "page text") "router text"
      [⟨640, 640, 0⟩] = DocOutcome.fallback "router text" :=
  ⟨rfl, (zero_tokens_error_and_redirect (some "tiny") 0 0 (fun _ => "page text") "router text"
    [⟨640, 640, 0⟩] ⟨640, 640, 0⟩ (by simp) rfl).2.2⟩

/-- C1 counterexample: primary available and selected (complexity 300),
primary fails, paddle would succeed — yet process_document returns the
primary engine's own error result directly and never runs the fallback
chain, contradicting the claim that a non-success result of the
selected engine triggers the full fallback chain. -/
theorem process_document_primary_error_returned_directly :
    process_document ⟨true, true, true⟩ true none 300
        ⟨"", "deepseek", "error", some "oom"⟩ ⟨"paddle text", "paddle", "success", none⟩
        ⟨"tess text", "tesseract", "success", none⟩ =
      ⟨"", "deepseek", "error", some "oom"⟩ ∧
    (⟨"", "deepseek", "error", some "oom"⟩ : OcrResult).status = "error" ∧
    (⟨"", "deepseek", "error", some "oom"⟩ : OcrResult).engine = "deepseek" ∧
    (⟨"paddle text", "paddle", "success", none⟩ : OcrResult).status = "success" := by
  exact ⟨rfl, rfl, rfl, rfl⟩

/-- C1 amended: process_document returns the selected engine's result
directly whenever that engine is present, even when that result is a
failure; the fallback chain runs only when the chosen engine is
unavailable, and then returns the first success among the enabled
engines in the fixed order deepseek, paddle, tesseract, or the
aggregate all-engines-failed result when none succeeds. -/
theorem process_document_routing_and_chain (st : HybridState) (has_service : Bool) (cx : ℤ)
    (ds pd tt : OcrResult) :
    (select_engine st has_service cx = "deepseek" → has_service = true →
      process_document st has_service none cx ds pd tt = ds) ∧
    (select_engine st has_service cx = "paddle" → st.has_paddle = true →
      process_document st has_service none cx ds pd tt = pd) ∧
    (select_engine st has_service cx = "tesseract" →
      process_document st has_service none cx ds pd tt = tt) ∧
    fallback_chain st has_service ds pd tt =
      (((if st.deepseek_available ∧ has_service then [ds] else []) ++
        (if st.has_paddle then [pd] else []) ++
        (if st.enable_tesseract then [tt] else [])).find?
          (fun r => decide (r.status = "success"))).getD all_failed_result := by
  refine ⟨?_, ?_, ?_, ?_⟩
  · intro h hs
    subst hs
    simp [process_document, h]
  · intro h hpad
    simp [process_document, h, hpad]
  · intro h
    simp [process_document, h]
  · rcases st with ⟨da, hpad, et⟩
    cases da <;> cases has_service <;> cases hpad <;> cases et <;>
      by_cases hds : ds.status = "success" <;> by_cases hpd : pd.status = "success" <;>
      by_cases htt : tt.status = "success" <;>
      simp [fallback_chain, List.find?, hds, hpd, htt]

/-- Witness for the amended C1 theorem: deepseek unavailable, paddle
present, complexity 1500 selects paddle and its result is returned. -/
theorem process_document_routing_and_chain_witness :
    select_engine ⟨false, true, true⟩ false 1500 = "paddle" ∧
    process_document ⟨false, true, true⟩ false none 1500 ⟨"d", "deepseek", "error", none⟩
        ⟨"p", "paddle", "success", none⟩ ⟨"t", "tesseract", "success", none⟩ =
      ⟨"p", "paddle", "success", none⟩ :=
  ⟨rfl, (process_document_routing_and_chain ⟨false, true, true⟩ false 1500
    ⟨"d", "deepseek", "error", none⟩ ⟨"p", "paddle", "success", none⟩
    ⟨"t", "tesseract", "success", none⟩).2.1 rfl rfl⟩

/-- C7 counterexample: the format "pdf" is outside the enumerated
table, yet decode does not fail closed: _create_prompt falls back to
the "text" template and decoding produces output (there is no
UnsupportedFormatError anywhere in the code). -/
theorem create_prompt_unknown_format_falls_back :
    format_prompts.lookup "pdf" = none ∧
    create_prompt "pdf" = "<image>\nFree OCR." ∧
    create_prompt "pdf" = create_prompt "text" ∧
    decode (fun p => String.append p " OUT") "pdf" false = "<image>\nFree OCR. OUT" := by
  exact ⟨rfl, rfl, rfl, rfl⟩

/-- C7 amended: for every output format outside the enumerated table,
_create_prompt silently falls back to the "text" prompt template and
decode behaves exactly as for format "text"; no error is raised. -/
theorem decode_unknown_format_as_text (generate : String → String) (fmt : String) (stream : Bool)
    (h : format_prompts.lookup fmt = none) :
    create_prompt fmt = create_prompt "text" ∧
    decode generate fmt stream = decode generate "text" stream := by
  have hc : create_prompt fmt = create_prompt "text" := by
    unfold create_prompt
    rw [h]
    rfl
  refine ⟨hc, ?_⟩
  unfold decode
  cases stream with
  | true => rfl
  | false => simp [hc]

/-- Witness for the amended C7 theorem at the unknown format "pdf". -/
theorem decode_unknown_format_as_text_witness :
    format_prompts.lookup "pdf" = none ∧
    decode (fun p => p) "pdf" false = decode (fun p => p) "text" false :=
  ⟨rfl, (decode_unknown_format_as_text (fun p => p) "pdf" false rfl).2⟩

/-- C8 counterexample: an existing 11 MB file in the degraded state is
routed to the streaming path, which runs the primary pipeline without
any state check; the raised exception propagates and the fallback
router (which would have succeeded) is never consulted, contradicting
the size-independence asserted by the claim. -/
theorem process_file_large_degraded_propagates :
    process_file true 11 false (Except.error ()) ⟨"fb text", "paddle", "success", none⟩ =
      Except.error ProcessFileError.propagated ∧
    (⟨"fb text", "paddle", "success", none⟩ : OcrResult).status = "success" := by
  refine ⟨?_, rfl⟩
  norm_num [process_file]

/-- C8 amended: for existing files of at most 10 MB, the degraded state
routes straight to the fallback router, and in the ready state a
primary-pipeline exception is caught and falls through to the router;
files above 10 MB are routed to the streaming path before the state
check, where the primary outcome (including an exception) propagates
unguarded. -/
theorem process_file_small_file_fallback_routing (size_mb : ℚ) (primary : Except Unit String)
    (fb : OcrResult) :
    (size_mb ≤ 10 →
      process_file true size_mb false primary fb =
        (if fb.status = "success" then Except.ok fb.text
         else Except.error (ProcessFileError.all_failed (fb.err.getD "Unknown error")))) ∧
    (size_mb ≤ 10 → ∀ e, primary = Except.error e →
      process_file true size_mb true primary fb =
        (if fb.status = "success" then Except.ok fb.text
         else Except.error (ProcessFileError.all_failed (fb.err.getD "Unknown error")))) ∧
    (10 < size_mb → ∀ ready,
      process_file true size_mb ready primary fb =
        (match primary with
         | Except.ok t => Except.ok t
         | Except.error _ => Except.error ProcessFileError.propagated)) := by
  refine ⟨?_, ?_, ?_⟩
  · intro hle
    simp [process_file, not_lt.mpr hle]
  · intro hle e he
    subst he
    simp [process_file, not_lt.mpr hle]
  · intro hlt ready
    simp [process_file, hlt]

/-- Witness for the amended C8 theorem: a 5 MB file in the degraded
state returns the fallback router's successful text. -/
theorem process_file_small_file_fallback_routing_witness :
    (5 : ℚ) ≤ 10 ∧
    process_file true 5 false (Except.error ()) ⟨"fb text", "paddle", "success", none⟩ =
      Except.ok "fb text" := by
  have h := (process_file_small_file_fallback_routing 5 (Except.error ())
    ⟨"fb text", "paddle", "success", none⟩).1 (by norm_num)
  refine ⟨by norm_num, ?_⟩
  rw [h]
  rfl

/-- C9: resize policy of _resize_to_target: for targets of width at
most 640 the image is never upscaled, and an input already fitting the
target (in particular one exactly at the target resolution) is
returned with unchanged size; for targets of width above 640 the
returned image has exactly the target dimensions regardless of the
input aspect ratio, with the aspect-resized content fitting inside the
canvas and pasted centered. -/
theorem resize_to_target_size_policy (img target : ImgSize)
    (hw : 0 < img.w) (hh : 0 < img.h) (htw : 0 < target.w) (hth : 0 < target.h) :
    (target.w ≤ 640 →
      ((img.w ≤ target.w ∧ img.h ≤ target.h) → (resize_to_target img target).size = img) ∧
      ((resize_to_target img target).size.w ≤ img.w ∧
        (resize_to_target img target).size.h ≤ img.h)) ∧
    (640 < target.w →
      (resize_to_target img target).size = ImgSize.mk target.w target.h ∧
      (resize_to_target img target).content_size.w ≤ target.w ∧
      (resize_to_target img target).content_size.h ≤ target.h ∧
      (resize_to_target img target).offset_x =
        ((target.w : ℤ) - ((resize_to_target img target).content_size.w : ℤ)) / 2 ∧
      (resize_to_target img target).offset_y =
        ((target.h : ℤ) - ((resize_to_target img target).content_size.h : ℤ)) / 2) := by
  constructor
  · intro h640
    constructor
    · intro hfits
      have hnot : ¬(target.w < img.w ∨ target.h < img.h) := by
        push_neg
        exact hfits
      simp [resize_to_target, h640, hnot]
    · by_cases hcond : target.w < img.w ∨ target.h < img.h
      · have hth_le := thumbnail_size_le img target hw hh htw hth
        simp only [resize_to_target, h640, hcond]
        simpa using hth_le
      · simp [resize_to_target, h640, hcond]
  · intro h640
    have hn : ¬ target.w ≤ 640 := not_le.mpr h640
    have hafs := aspect_fit_size_le img target hw hh
    refine ⟨by simp [resize_to_target, hn], ?_, ?_, ?_, ?_⟩
    · simpa [resize_to_target, hn] using hafs.1
    · simpa [resize_to_target, hn] using hafs.2
    · simp [resize_to_target, hn]
    · simp [resize_to_target, hn]

/-- Witness for the C9 theorem: a 640x640 page with a 640x640 target is
returned unchanged, and an 800x600 page with a 1024x1024 target comes
back with exactly the target canvas dimensions. -/
theorem resize_to_target_size_policy_witness :
    (resize_to_target ⟨640, 640⟩ ⟨640, 640⟩).size = (⟨640, 640⟩ : ImgSize) ∧
    (resize_to_target ⟨800, 600⟩ ⟨1024, 1024⟩).size = (⟨1024, 1024⟩ : ImgSize) :=
  ⟨((resize_to_target_size_policy ⟨640, 640⟩ ⟨640, 640⟩ (by decide) (by decide) (by decide)
      (by decide)).1 (by decide)).1 (by decide),
    ((resize_to_target_size_policy ⟨800, 600⟩ ⟨1024, 1024⟩ (by decide) (by decide) (by decide)
      (by decide)).2 (by decide)).1⟩

end Relay
